import Mathlib

/-
Shallow embedding of the Monte-Carlo matchup simulators of the fantasy
hockey program in src/main.py.

Modelling conventions.
Floating point arithmetic is modelled exactly over the rationals.  The
global numpy pseudo-random generator is modelled as a tape of standard
normal deviates indexed by the syntactic draw site, so that one draw of
numpy.random.normal(mu, sigma) at tape cell z yields mu + sigma * z.
Python dictionaries are association lists in insertion order, and
dict.get(key, default) is pyget.  Exceptions raised inside the Python
functions are modelled with Except String:
  numpy.zeros and numpy.random.normal raise
  ValueError: negative dimensions are not allowed on a negative size, and
  round applied to the NaN produced by numpy.mean of an empty list raises
  ValueError: cannot convert float NaN to integer.
The NaN pair produced by the division 0 / 0 when num_simulations = 0 in
simulate_matchup is modelled by the value none; a finite fraction q is
modelled by some q.  Stat values are the non-negative season averages of
the data model, so the scale argument of every normal draw is
non-negative and the numpy check of the scale sign never fires.
-/

/- A stat line maps a category name to a season-average value. -/
abbrev StatLine := List (String × ℚ)

/- Players of one roster position: player name to stat line. -/
abbrev Players := List (String × StatLine)

/- A team maps a position label to its players. -/
abbrev Team := List (String × Players)

/- Scoring weights: category name to weight. -/
abbrev Scoring := List (String × ℚ)

/-- Python dict.get k default over an association list. -/
def pyget {α : Type} (m : List (String × α)) (k : String) (d : α) : α :=
  (List.lookup k m).getD d

/-- The category_preferences table of src/main.py lines 55 to 70. -/
def category_preferences : List (String × Int) :=
  [("Goals", 1), ("Assists", 1), ("Shots", 1), ("Hits", 1), ("Blocks", 1),
   ("Wins", 1), ("Saves", 1), ("Shutouts", 1), ("Power Play Points", 1),
   ("Faceoff Wins", 1), ("Plus/Minus", 1), ("Penalty Minutes", -1),
   ("Goals Against Average", -1), ("Save Percentage", 1)]

/-- One draw of numpy.random.normal(v, v * 0.2) at standard deviate z,
that is v + (v * 0.2) * z. -/
def sampleVal (v z : ℚ) : ℚ := v + v * (2/10) * z

/- Tape of standard normal deviates for simulate_matchup, indexed by
day, team role (0 for team1, 1 for team2), position label, player name,
stat name and trial index. -/
abbrev AggTape := Nat → Nat → String → String → String → Nat → ℚ

/- Tape of standard normal deviates for simulate_category_matchup,
indexed by trial, category, team role, position label, player name and
day index. -/
abbrev CatTape := Nat → String → Nat → String → String → Nat → ℚ

/-- simulated_stats.get(stat, 0) in src/main.py lines 152 to 156: stats
present in the player stat line are sampled, absent stats give the
scalar 0. -/
def aggPlayerStatSample (stats : StatLine) (stat : String) (z : ℚ) : ℚ :=
  match List.lookup stat stats with
  | some v => sampleVal v z
  | none => 0

/-- One term scoring.get(stat, 0) * simulated_stats.get(stat, 0) of the
generator sum in src/main.py line 156. -/
def aggTerm (scoring : Scoring) (stats : StatLine) (stat : String) (z : ℚ) : ℚ :=
  pyget scoring stat 0 * aggPlayerStatSample stats stat z

/-- The per player, per day contribution to one trial of the team score
vector, src/main.py lines 152 to 157. -/
def aggPlayerContrib (scoring : Scoring) (cats : List String) (stats : StatLine)
    (zf : String → ℚ) : ℚ :=
  (cats.map (fun stat => aggTerm scoring stats stat (zf stat))).sum

/-- Trial entry i of the accumulated team total of simulate_matchup,
src/main.py lines 144 to 157: sum over the days of the window, the
roster positions and the players of the per player contribution. -/
def teamTotal (team : Team) (role : Nat) (scoring : Scoring) (cats : List String)
    (days : Int) (z : AggTape) (i : Nat) : ℚ :=
  ((List.range days.toNat).map (fun day =>
    (team.map (fun p =>
      (p.2.map (fun q =>
        aggPlayerContrib scoring cats q.2 (fun stat => z day role p.1 q.1 stat i))).sum)).sum)).sum

/-- numpy.sum(team1_total > team2_total) in src/main.py line 158: the
number of trial indices below n whose first total strictly exceeds the
second. -/
def aggWinCount (n : Nat) (f g : Nat → ℚ) : Nat :=
  ((List.range n).filter (fun i => decide (g i < f i))).length

/-- The number of trial indices below n where the two totals are exactly
equal. -/
def aggTieCount (n : Nat) (f g : Nat → ℚ) : Nat :=
  ((List.range n).filter (fun i => decide (f i = g i))).length

/-- simulate_matchup of src/main.py lines 137 to 159.  The day count is
(end_date - start_date).days + 1 and drives only the accumulation loop;
numpy.zeros(num_simulations) raises on a negative trial count, a zero
trial count reaches the division 0 / 0 and returns the NaN pair, and
otherwise the function returns
(team1_wins / n, (n - team1_wins) / n). -/
def simulate_matchup (team1 team2 : Team) (scoring : Scoring) (cats : List String)
    (startDate endDate : Int) (N : Int) (z : AggTape) :
    Except String (Option ℚ × Option ℚ) :=
  if N < 0 then Except.error "ValueError: negative dimensions are not allowed"
  else if N = 0 then Except.ok (none, none)
  else
    Except.ok
      (some ((aggWinCount N.toNat
          (teamTotal team1 0 scoring cats (endDate - startDate + 1) z)
          (teamTotal team2 1 scoring cats (endDate - startDate + 1) z) : ℚ) / (N.toNat : ℚ)),
       some (((N.toNat : ℚ) - (aggWinCount N.toNat
          (teamTotal team1 0 scoring cats (endDate - startDate + 1) z)
          (teamTotal team2 1 scoring cats (endDate - startDate + 1) z) : ℚ)) / (N.toNat : ℚ)))

/-- numpy.sum of the day-length normal draw of one player for one
category, src/main.py lines 186 to 190: mean stats.get(cat, 0) and
scale stats.get(cat, 0) * 0.2. -/
def catPlayerScore (stats : StatLine) (cat : String) (days : Int) (zd : Nat → ℚ) : ℚ :=
  ((List.range days.toNat).map (fun d => sampleVal (pyget stats cat 0) (zd d))).sum

/-- One team total for one category in one trial of
simulate_category_matchup, src/main.py lines 179 to 190. -/
def teamCatScore (team : Team) (role : Nat) (cat : String) (days : Int)
    (z : CatTape) (t : Nat) : ℚ :=
  (team.map (fun p =>
    (p.2.map (fun q =>
      catPlayerScore q.2 cat days (fun d => z t cat role p.1 q.1 d))).sum)).sum

/-- The comparison of the two adjusted category scores, src/main.py
lines 197 to 202, as the increment triple
(team1_cat_wins, team2_cat_wins, ties). -/
def catCompare (a1 a2 : ℚ) : Nat × Nat × Nat :=
  if a2 < a1 then (1, 0, 0) else if a1 < a2 then (0, 1, 0) else (0, 0, 1)

/-- The outcome of one category in one trial, src/main.py lines 192 to
202: when category_preferences.get(cat, 1) < 0 both scores are
multiplied by -1 before the comparison. -/
def catOutcome (cat : String) (s1 s2 : ℚ) : Nat × Nat × Nat :=
  catCompare (if pyget category_preferences cat 1 < 0 then s1 * (-1) else s1)
             (if pyget category_preferences cat 1 < 0 then s2 * (-1) else s2)

/-- One step of the per-trial category loop: add the outcome of one
category to the running tally triple. -/
def tallyStep (team1 team2 : Team) (days : Int) (z : CatTape) (t : Nat)
    (acc : Nat × Nat × Nat) (cat : String) : Nat × Nat × Nat :=
  (acc.1 + (catOutcome cat (teamCatScore team1 0 cat days z t)
              (teamCatScore team2 1 cat days z t)).1,
   acc.2.1 + (catOutcome cat (teamCatScore team1 0 cat days z t)
              (teamCatScore team2 1 cat days z t)).2.1,
   acc.2.2 + (catOutcome cat (teamCatScore team1 0 cat days z t)
              (teamCatScore team2 1 cat days z t)).2.2)

/-- The tally triple (team1_cat_wins, team2_cat_wins, ties) of one trial
of simulate_category_matchup, src/main.py lines 174 to 202. -/
def trialTally (team1 team2 : Team) (cats : List String) (days : Int)
    (z : CatTape) (t : Nat) : Nat × Nat × Nat :=
  cats.foldl (tallyStep team1 team2 days z t) (0, 0, 0)

/-- Whether some roster position of the team holds at least one player,
so that the player loop of src/main.py lines 184 to 190 performs a
normal draw. -/
def hasDraw (team : Team) : Bool := team.any (fun p => !p.2.isEmpty)

/-- Python round: round half to even, as applied to the numpy float
averages in src/main.py line 211. -/
def pyround (q : ℚ) : Int :=
  if q - (⌊q⌋ : ℚ) < 1/2 then ⌊q⌋
  else if 1/2 < q - (⌊q⌋ : ℚ) then ⌊q⌋ + 1
  else if ⌊q⌋ % 2 = 0 then ⌊q⌋ else ⌊q⌋ + 1

/-- simulate_category_matchup of src/main.py lines 162 to 211.  With a
non-positive trial count the three tally lists stay empty, numpy.mean
of an empty list is NaN and round raises; with a negative day count the
first normal draw (which needs a selected category and a rostered
player) raises on the negative size; otherwise it returns the rounded
trial averages of the three tallies. -/
def simulate_category_matchup (team1 team2 : Team) (cats : List String)
    (startDate endDate : Int) (N : Int) (z : CatTape) :
    Except String (Int × Int × Int) :=
  if N ≤ 0 then Except.error "ValueError: cannot convert float NaN to integer"
  else if endDate - startDate + 1 < 0 ∧ cats ≠ [] ∧ (hasDraw team1 ∨ hasDraw team2) then
    Except.error "ValueError: negative dimensions are not allowed"
  else
    Except.ok
      (pyround ((((List.range N.toNat).map
          (trialTally team1 team2 cats (endDate - startDate + 1) z)).map
            (fun x => ((x.1 : ℚ)))).sum / (N.toNat : ℚ)),
       pyround ((((List.range N.toNat).map
          (trialTally team1 team2 cats (endDate - startDate + 1) z)).map
            (fun x => ((x.2.1 : ℚ)))).sum / (N.toNat : ℚ)),
       pyround ((((List.range N.toNat).map
          (trialTally team1 team2 cats (endDate - startDate + 1) z)).map
            (fun x => ((x.2.2 : ℚ)))).sum / (N.toNat : ℚ)))

/- Concrete inputs used by the closed theorems below. -/

def ztape0 : AggTape := fun _ _ _ _ _ _ => 0

def ztape1 : AggTape := fun _ _ _ _ _ _ => 1

def ctape0 : CatTape := fun _ _ _ _ _ _ => 0

def ctape1 : CatTape := fun _ _ _ _ _ _ => 1

def demoTeam : Team := [("Center", [("Player A", [("Goals", 3)])])]

def emptyTeam : Team := [("Center", []), ("Goalie", [])]

def zeroTeam : Team := [("Center", [("Player Z", [("Goals", 0)])])]

def demoScoring : Scoring := [("Goals", 1)]

instance {ε α : Type} [DecidableEq ε] [DecidableEq α] : DecidableEq (Except ε α) := fun a b =>
  match a, b with
  | Except.error x, Except.error y =>
    if h : x = y then Decidable.isTrue (by rw [h])
    else Decidable.isFalse (by intro hc; cases hc; exact h rfl)
  | Except.error _, Except.ok _ => Decidable.isFalse (by intro hc; cases hc)
  | Except.ok _, Except.error _ => Decidable.isFalse (by intro hc; cases hc)
  | Except.ok x, Except.ok y =>
    if h : x = y then Decidable.isTrue (by rw [h])
    else Decidable.isFalse (by intro hc; cases hc; exact h rfl)

/- General helper lemmas. -/

lemma lookup_mem {α : Type} {k : String} {v : α} :
    ∀ {l : List (String × α)}, List.lookup k l = some v → (k, v) ∈ l := by
  intro l
  induction l with
  | nil => intro h; simp [List.lookup] at h
  | cons a tl ih =>
    intro h
    obtain ⟨k1, v1⟩ := a
    by_cases hk : (k == k1) = true
    · simp only [List.lookup, hk] at h
      obtain rfl : v1 = v := by simpa using h
      obtain rfl : k = k1 := by simpa using hk
      exact List.mem_cons_self _ _
    · rw [List.lookup, Bool.of_not_eq_true hk] at h
      exact List.mem_cons_of_mem _ (ih h)

lemma catCompare_sum (a1 a2 : ℚ) :
    (catCompare a1 a2).1 + (catCompare a1 a2).2.1 + (catCompare a1 a2).2.2 = 1 := by
  unfold catCompare
  split_ifs <;> rfl

lemma catOutcome_sum (cat : String) (s1 s2 : ℚ) :
    (catOutcome cat s1 s2).1 + (catOutcome cat s1 s2).2.1 + (catOutcome cat s1 s2).2.2 = 1 := by
  unfold catOutcome
  exact catCompare_sum _ _

lemma catOutcome_self (cat : String) (s : ℚ) : catOutcome cat s s = (0, 0, 1) := by
  unfold catOutcome catCompare
  split_ifs <;> first
    | rfl
    | exact absurd (by assumption : _ < _) (lt_irrefl _)

lemma length_filter_trichotomy (f g : Nat → ℚ) :
    ∀ l : List Nat,
      (l.filter (fun i => decide (g i < f i))).length +
        (l.filter (fun i => decide (f i < g i))).length +
        (l.filter (fun i => decide (f i = g i))).length = l.length := by
  intro l
  induction l with
  | nil => rfl
  | cons a tl ih =>
    rcases lt_trichotomy (f a) (g a) with h | h | h
    · rw [List.filter_cons_of_neg (by simpa using asymm h),
        List.filter_cons_of_pos (by simpa using h),
        List.filter_cons_of_neg (by simpa using ne_of_lt h)]
      simpa using by omega
    · rw [List.filter_cons_of_neg (by simp [h]),
        List.filter_cons_of_neg (by simp [h]),
        List.filter_cons_of_pos (by simpa using h)]
      simpa using by omega
    · rw [List.filter_cons_of_pos (by simpa using h),
        List.filter_cons_of_neg (by simpa using asymm h),
        List.filter_cons_of_neg (by simpa using (ne_of_gt h))]
      simpa using by omega

lemma win_lose_tie_count (n : Nat) (f g : Nat → ℚ) :
    aggWinCount n f g + aggWinCount n g f + aggTieCount n f g = n := by
  have h := length_filter_trichotomy f g (List.range n)
  simpa [aggWinCount, aggTieCount, List.length_range] using h

lemma tally_foldl_sum (team1 team2 : Team) (days : Int) (z : CatTape) (t : Nat) :
    ∀ (cats : List String) (acc : Nat × Nat × Nat),
      (cats.foldl (tallyStep team1 team2 days z t) acc).1 +
        (cats.foldl (tallyStep team1 team2 days z t) acc).2.1 +
        (cats.foldl (tallyStep team1 team2 days z t) acc).2.2 =
      acc.1 + acc.2.1 + acc.2.2 + cats.length := by
  intro cats
  induction cats with
  | nil => intro acc; simp
  | cons c tl ih =>
    intro acc
    rw [List.foldl_cons, ih]
    have h := catOutcome_sum c (teamCatScore team1 0 c days z t) (teamCatScore team2 1 c days z t)
    simp only [tallyStep, List.length_cons]
    omega

/-- C6: in every single trial of the Category Matchup Simulator, for every
input, the three per-trial tallies (categories won by team1, won by team2,
tied) are natural numbers that sum exactly to the number of selected
categories, since each selected category increments exactly one of the
three counters. -/
theorem trial_tally_sum (team1 team2 : Team) (cats : List String) (days : Int)
    (z : CatTape) (t : Nat) :
    (trialTally team1 team2 cats days z t).1 +
      (trialTally team1 team2 cats days z t).2.1 +
      (trialTally team1 team2 cats days z t).2.2 = cats.length := by
  have h := tally_foldl_sum team1 team2 days z t cats (0, 0, 0)
  simpa [trialTally] using h

/-- C7: for every category whose preference entry is negative, both team
totals are multiplied by -1 before the comparison, so team1 takes the
category exactly when its raw total is strictly smaller; a category with
no entry in category_preferences gets the default preference 1 and is
compared without negation. -/
theorem directionality_negation (cat : String) (s1 s2 : ℚ) :
    (pyget category_preferences cat 1 < 0 →
      catOutcome cat s1 s2 = catCompare (s1 * (-1)) (s2 * (-1)) ∧
      ((catOutcome cat s1 s2).1 = 1 ↔ s1 < s2)) ∧
    (List.lookup cat category_preferences = none →
      pyget category_preferences cat 1 = 1 ∧
      catOutcome cat s1 s2 = catCompare s1 s2) := by
  constructor
  · intro h
    have e : catOutcome cat s1 s2 = catCompare (s1 * (-1)) (s2 * (-1)) := by
      rw [catOutcome, if_pos h, if_pos h]
    refine ⟨e, ?_⟩
    rw [e]
    have e1 : s1 * (-1) = -s1 := by ring
    have e2 : s2 * (-1) = -s2 := by ring
    rw [e1, e2]
    unfold catCompare
    by_cases hc : -s2 < -s1
    · rw [if_pos hc]
      simp [neg_lt_neg_iff.mp hc]
    · rw [if_neg hc]
      have hns : ¬ s1 < s2 := fun hlt => hc (neg_lt_neg hlt)
      split_ifs with h2
      · simp [hns]
      · simp [hns]
  · intro h
    have hp : pyget category_preferences cat 1 = 1 := by simp [pyget, h]
    refine ⟨hp, ?_⟩
    rw [catOutcome, hp]
    norm_num

/-- Witness for C7 at the lower-is-better category Penalty Minutes and at
a category name with no preference entry. -/
theorem directionality_negation_witness :
    (pyget category_preferences "Penalty Minutes" 1 < 0 ∧
      catOutcome "Penalty Minutes" (1 : ℚ) 2 = (1, 0, 0)) ∧
    (List.lookup "Corsi" category_preferences = none ∧
      catOutcome "Corsi" (1 : ℚ) 2 = (0, 1, 0)) := by
  constructor
  · refine ⟨by decide, ?_⟩
    have h := (directionality_negation "Penalty Minutes" (1 : ℚ) 2).1 (by decide)
    rw [h.1]
    norm_num [catCompare]
  · refine ⟨by decide, ?_⟩
    have h := (directionality_negation "Corsi" (1 : ℚ) 2).2 (by decide)
    rw [h.2]
    norm_num [catCompare]

/- Zero stat lines and empty rosters. -/

/-- Every stat value of every player of the team is zero. -/
def allZero (team : Team) : Prop :=
  ∀ p ∈ team, ∀ q ∈ p.2, ∀ sv ∈ q.2, sv.2 = 0

lemma sampleVal_zero (z : ℚ) : sampleVal 0 z = 0 := by simp [sampleVal]

lemma pyget_zero {stats : StatLine} (h : ∀ sv ∈ stats, sv.2 = 0) (cat : String) :
    pyget stats cat (0 : ℚ) = 0 := by
  unfold pyget
  cases hc : List.lookup cat stats with
  | none => rfl
  | some v => simpa using h _ (lookup_mem hc)

lemma catPlayerScore_zero {stats : StatLine} (h : ∀ sv ∈ stats, sv.2 = 0)
    (cat : String) (days : Int) (zd : Nat → ℚ) : catPlayerScore stats cat days zd = 0 := by
  unfold catPlayerScore
  apply List.sum_eq_zero
  intro x hx
  obtain ⟨d, hd, rfl⟩ := List.mem_map.mp hx
  rw [pyget_zero h cat]
  exact sampleVal_zero _

lemma teamCatScore_zero {team : Team} (h : allZero team) (role : Nat) (cat : String)
    (days : Int) (z : CatTape) (t : Nat) : teamCatScore team role cat days z t = 0 := by
  unfold teamCatScore
  apply List.sum_eq_zero
  intro x hx
  obtain ⟨p, hp, rfl⟩ := List.mem_map.mp hx
  apply List.sum_eq_zero
  intro y hy
  obtain ⟨q, hq, rfl⟩ := List.mem_map.mp hy
  exact catPlayerScore_zero (h p hp q hq) _ _ _

lemma aggPlayerContrib_zero (scoring : Scoring) (cats : List String) {stats : StatLine}
    (h : ∀ sv ∈ stats, sv.2 = 0) (zf : String → ℚ) :
    aggPlayerContrib scoring cats stats zf = 0 := by
  unfold aggPlayerContrib
  apply List.sum_eq_zero
  intro x hx
  obtain ⟨stat, hs, rfl⟩ := List.mem_map.mp hx
  unfold aggTerm aggPlayerStatSample
  cases hc : List.lookup stat stats with
  | none => simp
  | some v =>
    have hv : v = 0 := by simpa using h _ (lookup_mem hc)
    simp [hv, sampleVal_zero]

lemma teamTotal_zero {team : Team} (h : allZero team) (role : Nat) (scoring : Scoring)
    (cats : List String) (days : Int) (z : AggTape) (i : Nat) :
    teamTotal team role scoring cats days z i = 0 := by
  unfold teamTotal
  apply List.sum_eq_zero
  intro x hx
  obtain ⟨day, hday, rfl⟩ := List.mem_map.mp hx
  apply List.sum_eq_zero
  intro y hy
  obtain ⟨p, hp, rfl⟩ := List.mem_map.mp hy
  apply List.sum_eq_zero
  intro w hw
  obtain ⟨q, hq, rfl⟩ := List.mem_map.mp hw
  exact aggPlayerContrib_zero _ _ (h p hp q hq) _

lemma allZero_of_noDraw {team : Team} (h : hasDraw team = false) : allZero team := by
  intro p hp q hq sv hsv
  have h2 := (List.any_eq_false.mp h) p hp
  have h3 : p.2.isEmpty = true := by simpa using h2
  rw [List.isEmpty_iff] at h3
  rw [h3] at hq
  simp at hq

lemma trialTally_tie (team1 team2 : Team) (cats : List String) (days : Int)
    (z : CatTape) (t : Nat)
    (h : ∀ cat, teamCatScore team1 0 cat days z t = teamCatScore team2 1 cat days z t) :
    trialTally team1 team2 cats days z t = (0, 0, cats.length) := by
  unfold trialTally
  suffices haux : ∀ (l : List String) (acc : Nat × Nat × Nat),
      l.foldl (tallyStep team1 team2 days z t) acc = (acc.1, acc.2.1, acc.2.2 + l.length) by
    simpa using haux cats (0, 0, 0)
  intro l
  induction l with
  | nil => intro acc; simp
  | cons c tl ih =>
    intro acc
    rw [List.foldl_cons, ih]
    simp only [tallyStep, h c, catOutcome_self, List.length_cons, Prod.mk.injEq]
    omega

lemma pyround_intCast (m : Int) : pyround ((m : ℚ)) = m := by
  unfold pyround
  rw [Int.floor_intCast]
  norm_num

lemma pyround_natCast (L : Nat) : pyround ((L : ℚ)) = L := by
  have h := pyround_intCast (L : Int)
  simpa using h

lemma trialTally_map_replicate (team1 team2 : Team) (cats : List String) (days : Int)
    (z : CatTape) (n : Nat)
    (h : ∀ t, trialTally team1 team2 cats days z t = (0, 0, cats.length)) :
    (List.range n).map (trialTally team1 team2 cats days z) =
      List.replicate n ((0 : Nat), (0 : Nat), cats.length) := by
  have e : (List.range n).map (trialTally team1 team2 cats days z) =
      (List.range n).map (fun _ => ((0 : Nat), (0 : Nat), cats.length)) :=
    List.map_congr_left (fun t _ => h t)
  rw [e]
  simp

/-- C4 counterexample: with both rosters entirely empty and one trial, the
Aggregate Win Simulator returns the fraction pair (0, 1), not (0, 0) as
the claim states. -/
theorem empty_rosters_counterexample :
    simulate_matchup emptyTeam emptyTeam demoScoring ["Goals"] 0 0 1 ztape0 =
      Except.ok (some 0, some 1) ∧
    simulate_matchup emptyTeam emptyTeam demoScoring ["Goals"] 0 0 1 ztape0 ≠
      Except.ok (some 0, some 0) := by
  have ht : ∀ role i, teamTotal emptyTeam role demoScoring ["Goals"] 1 ztape0 i = 0 := by
    intro role i; simp [teamTotal, emptyTeam]
  have he : simulate_matchup emptyTeam emptyTeam demoScoring ["Goals"] 0 0 1 ztape0 =
      Except.ok (some 0, some 1) := by
    simp [simulate_matchup, aggWinCount, ht]
  refine ⟨he, ?_⟩
  rw [he]
  intro hcontra
  simp at hcontra

/-- C4 amended: when every roster position of both teams holds no players,
for every window, tape and trial count of at least 1, the Aggregate Win
Simulator returns the pair (0, 1) (every trial ties at 0 = 0 and tied
trials land in the second fraction), and the Category Matchup Simulator
returns (0, 0, number of selected categories). -/
theorem empty_rosters_outputs (team1 team2 : Team) (scoring : Scoring) (cats : List String)
    (sd ed N : Int) (za : AggTape) (zc : CatTape)
    (h1 : hasDraw team1 = false) (h2 : hasDraw team2 = false) (hN : 1 ≤ N) :
    simulate_matchup team1 team2 scoring cats sd ed N za = Except.ok (some 0, some 1) ∧
    simulate_category_matchup team1 team2 cats sd ed N zc =
      Except.ok (0, 0, (cats.length : Int)) := by
  have hz1 := allZero_of_noDraw h1
  have hz2 := allZero_of_noDraw h2
  have hn1 : 1 ≤ N.toNat := by omega
  have hnQpos : (0 : ℚ) < (N.toNat : ℚ) := by
    have h0 : 0 < N.toNat := hn1
    exact_mod_cast h0
  have hnQ : ((N.toNat : ℚ)) ≠ 0 := ne_of_gt hnQpos
  constructor
  · have hw : aggWinCount N.toNat (teamTotal team1 0 scoring cats (ed - sd + 1) za)
        (teamTotal team2 1 scoring cats (ed - sd + 1) za) = 0 := by
      unfold aggWinCount
      rw [List.length_eq_zero, List.filter_eq_nil_iff]
      intro i hi
      simp [teamTotal_zero hz1, teamTotal_zero hz2]
    simp only [simulate_matchup, if_neg (by omega : ¬ N < 0), if_neg (by omega : ¬ N = 0), hw]
    rw [Nat.cast_zero, zero_div, sub_zero, div_self hnQ]
  · have hcond : ¬ (ed - sd + 1 < 0 ∧ cats ≠ [] ∧
        (hasDraw team1 = true ∨ hasDraw team2 = true)) := by
      simp [h1, h2]
    have htt : ∀ t, trialTally team1 team2 cats (ed - sd + 1) zc t = (0, 0, cats.length) :=
      fun t => trialTally_tie _ _ _ _ _ _ (fun cat => by
        rw [teamCatScore_zero hz1, teamCatScore_zero hz2])
    have hrep := trialTally_map_replicate team1 team2 cats (ed - sd + 1) zc N.toNat htt
    simp only [simulate_category_matchup, if_neg (by omega : ¬ N ≤ 0), if_neg hcond, hrep]
    rw [List.map_replicate, List.map_replicate, List.map_replicate]
    simp only [List.sum_replicate, nsmul_eq_mul]
    rw [Nat.cast_zero, mul_zero, zero_div]
    rw [mul_comm, mul_div_assoc, div_self hnQ, mul_one]
    rw [pyround_natCast]
    have h0 : pyround (0 : ℚ) = 0 := by
      have h := pyround_intCast 0
      simpa using h
    rw [h0]

/-- Witness for C4 at two concrete empty rosters. -/
theorem empty_rosters_outputs_witness :
    hasDraw emptyTeam = false ∧ (1 : Int) ≤ 1 ∧
    simulate_matchup emptyTeam emptyTeam demoScoring ["Goals", "Hits"] 0 3 1 ztape0 =
      Except.ok (some 0, some 1) ∧
    simulate_category_matchup emptyTeam emptyTeam ["Goals", "Hits"] 0 3 1 ctape0 =
      Except.ok (0, 0, 2) := by
  refine ⟨by decide, by decide, ?_, ?_⟩
  · exact (empty_rosters_outputs emptyTeam emptyTeam demoScoring ["Goals", "Hits"]
      0 3 1 ztape0 ctape0 (by decide) (by decide) (by decide)).1
  · exact (empty_rosters_outputs emptyTeam emptyTeam demoScoring ["Goals", "Hits"]
      0 3 1 ztape0 ctape0 (by decide) (by decide) (by decide)).2

/-- C8: every per-player per-day draw has the form
value + (value * 0.2) * z, the normal variate with mean value and scale
value * 0.2 at standard deviate z; at mean 0 the scale is 0 and the draw
is 0 for every deviate, so with all-zero stat lines both simulators give
the same output on every pair of random tapes. -/
theorem zero_mean_deterministic (team1 team2 : Team) (scoring : Scoring) (cats : List String)
    (sd ed N : Int) (z w : CatTape) (za wa : AggTape)
    (h1 : allZero team1) (h2 : allZero team2) :
    (∀ v d : ℚ, sampleVal v d = v + v * (2/10) * d) ∧
    (∀ d : ℚ, sampleVal 0 d = 0) ∧
    simulate_category_matchup team1 team2 cats sd ed N z =
      simulate_category_matchup team1 team2 cats sd ed N w ∧
    simulate_matchup team1 team2 scoring cats sd ed N za =
      simulate_matchup team1 team2 scoring cats sd ed N wa := by
  refine ⟨fun v d => rfl, sampleVal_zero, ?_, ?_⟩
  · by_cases hN : N ≤ 0
    · simp [simulate_category_matchup, hN]
    · by_cases hc : (ed - sd + 1 < 0 ∧ cats ≠ [] ∧
          (hasDraw team1 = true ∨ hasDraw team2 = true))
      · simp only [simulate_category_matchup, if_neg hN, if_pos hc]
      · have htt : ∀ (tape : CatTape) (t : Nat),
            trialTally team1 team2 cats (ed - sd + 1) tape t = (0, 0, cats.length) :=
          fun tape t => trialTally_tie _ _ _ _ _ _ (fun cat => by
            rw [teamCatScore_zero h1, teamCatScore_zero h2])
        have hz := trialTally_map_replicate team1 team2 cats (ed - sd + 1) z N.toNat (htt z)
        have hw := trialTally_map_replicate team1 team2 cats (ed - sd + 1) w N.toNat (htt w)
        simp only [simulate_category_matchup, if_neg hN, if_neg hc, hz, hw]
  · by_cases hN : N < 0
    · simp [simulate_matchup, hN]
    · by_cases hN0 : N = 0
      · simp [simulate_matchup, hN0]
      · have e1 : teamTotal team1 0 scoring cats (ed - sd + 1) za =
            teamTotal team1 0 scoring cats (ed - sd + 1) wa :=
          funext fun i => by rw [teamTotal_zero h1, teamTotal_zero h1]
        have e2 : teamTotal team2 1 scoring cats (ed - sd + 1) za =
            teamTotal team2 1 scoring cats (ed - sd + 1) wa :=
          funext fun i => by rw [teamTotal_zero h2, teamTotal_zero h2]
        simp only [simulate_matchup, e1, e2]

/-- Witness for C8 at a one-player roster whose only stat value is 0,
compared over the all-zero and the all-one random tapes. -/
theorem zero_mean_deterministic_witness :
    allZero zeroTeam ∧ allZero emptyTeam ∧
    simulate_category_matchup zeroTeam emptyTeam ["Goals"] 0 1 2 ctape0 =
      simulate_category_matchup zeroTeam emptyTeam ["Goals"] 0 1 2 ctape1 ∧
    simulate_matchup zeroTeam emptyTeam demoScoring ["Goals"] 0 1 2 ztape0 =
      simulate_matchup zeroTeam emptyTeam demoScoring ["Goals"] 0 1 2 ztape1 := by
  refine ⟨by simp [allZero, zeroTeam], by simp [allZero, emptyTeam], ?_, ?_⟩
  · exact (zero_mean_deterministic zeroTeam emptyTeam demoScoring ["Goals"] 0 1 2
      ctape0 ctape1 ztape0 ztape1 (by simp [allZero, zeroTeam]) (by simp [allZero, emptyTeam])).2.2.1
  · exact (zero_mean_deterministic zeroTeam emptyTeam demoScoring ["Goals"] 0 1 2
      ctape0 ctape1 ztape0 ztape1 (by simp [allZero, zeroTeam]) (by simp [allZero, emptyTeam])).2.2.2

/-- C9: a selected category absent from a player stat line samples as the
scalar 0 in the Aggregate Win Simulator and as a zero-mean (hence zero)
day vector in the Category Matchup Simulator, and a selected category
absent from the scoring mapping gets weight 0, so each absence
contributes exactly zero and raises nothing. -/
theorem missing_keys_contribute_zero (stats : StatLine) (scoring : Scoring) (stat : String) :
    (List.lookup stat stats = none →
      (∀ z, aggPlayerStatSample stats stat z = 0) ∧
      (∀ sc z, aggTerm sc stats stat z = 0) ∧
      (∀ days zd, catPlayerScore stats stat days zd = 0)) ∧
    (List.lookup stat scoring = none →
      ∀ st z, aggTerm scoring st stat z = 0) := by
  constructor
  · intro h
    refine ⟨?_, ?_, ?_⟩
    · intro z; simp [aggPlayerStatSample, h]
    · intro sc z; simp [aggTerm, aggPlayerStatSample, h]
    · intro days zd
      unfold catPlayerScore
      apply List.sum_eq_zero
      intro x hx
      obtain ⟨d, hd, rfl⟩ := List.mem_map.mp hx
      simp [pyget, h, sampleVal]
  · intro h st z
    simp [aggTerm, pyget, h]

/-- Witness for C9: the category Hits is absent from the stat line and
the category Goals is absent from the second scoring mapping. -/
theorem missing_keys_contribute_zero_witness :
    aggTerm [("Goals", 1)] [("Goals", 3)] "Hits" 7 = 0 ∧
    catPlayerScore [("Goals", 3)] "Hits" 2 (fun _ => 5) = 0 ∧
    aggTerm [("Hits", 4)] [("Goals", 3)] "Goals" 7 = 0 := by
  refine ⟨?_, ?_, ?_⟩
  · exact ((missing_keys_contribute_zero [("Goals", 3)] [("Goals", 1)] "Hits").1
      (by decide)).2.1 [("Goals", 1)] 7
  · exact ((missing_keys_contribute_zero [("Goals", 3)] [("Goals", 1)] "Hits").1
      (by decide)).2.2 2 (fun _ => 5)
  · exact (missing_keys_contribute_zero [("Goals", 3)] [("Hits", 4)] "Goals").2
      (by decide) [("Goals", 3)] 7

lemma teamTotal_scoring_congr {s1 s2 : Scoring} (team : Team) (role : Nat)
    (cats : List String) (days : Int) (z : AggTape) (i : Nat)
    (h : ∀ c ∈ cats, pyget s1 c (0 : ℚ) = pyget s2 c 0) :
    teamTotal team role s1 cats days z i = teamTotal team role s2 cats days z i := by
  unfold teamTotal
  congr 1
  apply List.map_congr_left
  intro day _
  congr 1
  apply List.map_congr_left
  intro p _
  congr 1
  apply List.map_congr_left
  intro q _
  unfold aggPlayerContrib
  congr 1
  apply List.map_congr_left
  intro stat hstat
  unfold aggTerm
  rw [h stat hstat]

/-- C10: the Aggregate Win Simulator reads the scoring mapping only at
the selected categories, so two scoring mappings that agree on every
selected category give identical results on the same rosters, window,
trial count and random tape. -/
theorem scoring_outside_selected_irrelevant (team1 team2 : Team) (s1 s2 : Scoring)
    (cats : List String) (sd ed N : Int) (z : AggTape)
    (h : ∀ c ∈ cats, pyget s1 c (0 : ℚ) = pyget s2 c 0) :
    simulate_matchup team1 team2 s1 cats sd ed N z =
      simulate_matchup team1 team2 s2 cats sd ed N z := by
  have e1 : teamTotal team1 0 s1 cats (ed - sd + 1) z =
      teamTotal team1 0 s2 cats (ed - sd + 1) z :=
    funext fun i => teamTotal_scoring_congr team1 0 cats (ed - sd + 1) z i h
  have e2 : teamTotal team2 1 s1 cats (ed - sd + 1) z =
      teamTotal team2 1 s2 cats (ed - sd + 1) z :=
    funext fun i => teamTotal_scoring_congr team2 1 cats (ed - sd + 1) z i h
  simp only [simulate_matchup, e1, e2]

/-- Witness for C10: adding the weight entry for the unselected category
Hits leaves the result unchanged. -/
theorem scoring_outside_selected_irrelevant_witness :
    (∀ c ∈ ["Goals"], pyget [("Goals", (1 : ℚ))] c (0 : ℚ) =
      pyget [("Goals", (1 : ℚ)), ("Hits", 5)] c 0) ∧
    simulate_matchup demoTeam emptyTeam [("Goals", 1)] ["Goals"] 0 0 1 ztape0 =
      simulate_matchup demoTeam emptyTeam [("Goals", 1), ("Hits", 5)] ["Goals"] 0 0 1 ztape0 := by
  refine ⟨?_, ?_⟩
  · intro c hc
    rw [List.mem_singleton] at hc
    subst hc
    decide
  · exact scoring_outside_selected_irrelevant demoTeam emptyTeam [("Goals", 1)]
      [("Goals", 1), ("Hits", 5)] ["Goals"] 0 0 1 ztape0
      (by intro c hc; rw [List.mem_singleton] at hc; subst hc; decide)

/-- The amended C1 statement for one run of simulate_matchup with trial
count at least 1: with w, lose and tie the counts of trials won strictly
by team1, won strictly by team2 and tied, the returned pair is
(w / N, (lose + tie) / N): a tied trial counts toward the second
fraction, both fractions lie in the unit interval and their sum is
exactly 1. -/
def aggFracSpec (team1 team2 : Team) (scoring : Scoring) (cats : List String)
    (sd ed N : Int) (z : AggTape) : Prop :=
  ∃ w lose tie : Nat,
    w = aggWinCount N.toNat (teamTotal team1 0 scoring cats (ed - sd + 1) z)
        (teamTotal team2 1 scoring cats (ed - sd + 1) z) ∧
    lose = aggWinCount N.toNat (teamTotal team2 1 scoring cats (ed - sd + 1) z)
        (teamTotal team1 0 scoring cats (ed - sd + 1) z) ∧
    tie = aggTieCount N.toNat (teamTotal team1 0 scoring cats (ed - sd + 1) z)
        (teamTotal team2 1 scoring cats (ed - sd + 1) z) ∧
    w + lose + tie = N.toNat ∧
    simulate_matchup team1 team2 scoring cats sd ed N z =
      Except.ok (some ((w : ℚ) / (N.toNat : ℚ)),
                 some (((lose : ℚ) + (tie : ℚ)) / (N.toNat : ℚ))) ∧
    0 ≤ (w : ℚ) / (N.toNat : ℚ) ∧ (w : ℚ) / (N.toNat : ℚ) ≤ 1 ∧
    0 ≤ ((lose : ℚ) + (tie : ℚ)) / (N.toNat : ℚ) ∧
    ((lose : ℚ) + (tie : ℚ)) / (N.toNat : ℚ) ≤ 1 ∧
    (w : ℚ) / (N.toNat : ℚ) + ((lose : ℚ) + (tie : ℚ)) / (N.toNat : ℚ) = 1

/-- C1 amended: for every pair of rosters, scoring weights, window and
trial count N of at least 1, a tied trial counts toward the second
returned fraction (it is (N - winCount) / N), both fractions lie in
[0, 1] and their sum is exactly 1. -/
theorem agg_fractions_bounds_and_tie_counting (team1 team2 : Team) (scoring : Scoring)
    (cats : List String) (sd ed N : Int) (z : AggTape) (hN : 1 ≤ N) :
    aggFracSpec team1 team2 scoring cats sd ed N z := by
  have hn1 : 1 ≤ N.toNat := by omega
  set n := N.toNat with hn
  set f := teamTotal team1 0 scoring cats (ed - sd + 1) z with hfd
  set g := teamTotal team2 1 scoring cats (ed - sd + 1) z with hgd
  have htri := win_lose_tie_count n f g
  set w := aggWinCount n f g with hw
  set l := aggWinCount n g f with hl
  set t := aggTieCount n f g with ht
  have hnQpos : (0 : ℚ) < (n : ℚ) := by exact_mod_cast hn1
  have hnQ : ((n : ℚ)) ≠ 0 := ne_of_gt hnQpos
  have hcast : (w : ℚ) + (l : ℚ) + (t : ℚ) = (n : ℚ) := by exact_mod_cast htri
  have hwn : w ≤ n := by omega
  refine ⟨w, l, t, rfl, rfl, rfl, htri, ?_, ?_, ?_, ?_, ?_, ?_⟩
  · simp only [simulate_matchup, if_neg (by omega : ¬ N < 0), if_neg (by omega : ¬ N = 0)]
    have e : ((n : ℚ)) - (w : ℚ) = (l : ℚ) + (t : ℚ) := by linarith
    rw [← hn, e]
  · positivity
  · rw [div_le_one hnQpos]
    exact_mod_cast hwn
  · positivity
  · rw [div_le_one hnQpos]
    have hlt : l + t ≤ n := by omega
    exact_mod_cast hlt
  · rw [div_add_div_same, show (w : ℚ) + ((l : ℚ) + (t : ℚ)) = ((n : ℚ)) by linarith,
      div_self hnQ]

/-- Witness for C1 at a concrete one-trial run. -/
theorem agg_fractions_bounds_and_tie_counting_witness :
    (1 : Int) ≤ 1 ∧ aggFracSpec demoTeam emptyTeam demoScoring ["Goals"] 0 0 1 ztape0 :=
  ⟨by decide, agg_fractions_bounds_and_tie_counting demoTeam emptyTeam demoScoring
    ["Goals"] 0 0 1 ztape0 (by decide)⟩

/-- C1 counterexample: with both rosters empty and one trial, the totals
tie, yet the returned fractions are (0, 1): the tied trial is counted in
the second fraction and the sum equals 1 instead of falling strictly
below 1. -/
theorem agg_tie_sum_counterexample :
    teamTotal emptyTeam 0 demoScoring ["Goals"] 1 ztape0 0 =
      teamTotal emptyTeam 1 demoScoring ["Goals"] 1 ztape0 0 ∧
    simulate_matchup emptyTeam emptyTeam demoScoring ["Goals"] 0 0 1 ztape0 =
      Except.ok (some 0, some 1) ∧
    ¬ ((0 : ℚ) + 1 < 1) := by
  have ht : ∀ role i, teamTotal emptyTeam role demoScoring ["Goals"] 1 ztape0 i = 0 := by
    intro role i; simp [teamTotal, emptyTeam]
  refine ⟨by rw [ht 0 0, ht 1 0], ?_, by norm_num⟩
  simp [simulate_matchup, aggWinCount, ht]

/-- The random tape of a symmetric replay: the deviates drawn for the two
team roles are exchanged, so each player receives the identical draws
after the team arguments are swapped. -/
def roleSwapAgg (z : AggTape) : AggTape :=
  fun day role pos pl stat i => z day (1 - role) pos pl stat i

/-- C5 counterexample: with both rosters empty (one tied trial), the
original run returns (0, 1) and the swapped run on the symmetric tape
also returns (0, 1), not the swapped pair (1, 0). -/
theorem swap_symmetry_counterexample :
    simulate_matchup emptyTeam emptyTeam demoScoring ["Goals"] 0 0 1 ztape0 =
      Except.ok (some 0, some 1) ∧
    simulate_matchup emptyTeam emptyTeam demoScoring ["Goals"] 0 0 1 (roleSwapAgg ztape0) =
      Except.ok (some 0, some 1) ∧
    (Except.ok ((some (0 : ℚ), some (1 : ℚ))) : Except String (Option ℚ × Option ℚ)) ≠
      Except.ok ((some (1 : ℚ), some (0 : ℚ))) := by
  have ht : ∀ (tape : AggTape) (role i : Nat),
      teamTotal emptyTeam role demoScoring ["Goals"] 1 tape i = 0 := by
    intro tape role i; simp [teamTotal, emptyTeam]
  refine ⟨?_, ?_, by simp⟩
  · simp [simulate_matchup, aggWinCount, ht]
  · simp [simulate_matchup, aggWinCount, ht]

/-- C5 amended: replaying the tape symmetrically while swapping the team
arguments exchanges the two team total functions, and the swapped run
returns the pair (b, a) whenever the original returns (a, b), provided no
trial ties; with tied trials the returned pairs are not swaps of each
other, because the second fraction absorbs the ties. -/
theorem swap_symmetry_no_ties (team1 team2 : Team) (scoring : Scoring) (cats : List String)
    (sd ed N : Int) (z : AggTape) (hN : 1 ≤ N)
    (hnt : ∀ i, i < N.toNat →
      teamTotal team1 0 scoring cats (ed - sd + 1) z i ≠
        teamTotal team2 1 scoring cats (ed - sd + 1) z i) :
    (∀ team : Team, teamTotal team 0 scoring cats (ed - sd + 1) (roleSwapAgg z) =
      teamTotal team 1 scoring cats (ed - sd + 1) z) ∧
    (∀ team : Team, teamTotal team 1 scoring cats (ed - sd + 1) (roleSwapAgg z) =
      teamTotal team 0 scoring cats (ed - sd + 1) z) ∧
    ∃ a b : ℚ,
      simulate_matchup team1 team2 scoring cats sd ed N z = Except.ok (some a, some b) ∧
      simulate_matchup team2 team1 scoring cats sd ed N (roleSwapAgg z) =
        Except.ok (some b, some a) := by
  have e0 : ∀ team : Team, teamTotal team 0 scoring cats (ed - sd + 1) (roleSwapAgg z) =
      teamTotal team 1 scoring cats (ed - sd + 1) z := fun team => rfl
  have e1 : ∀ team : Team, teamTotal team 1 scoring cats (ed - sd + 1) (roleSwapAgg z) =
      teamTotal team 0 scoring cats (ed - sd + 1) z := fun team => rfl
  refine ⟨e0, e1, ?_⟩
  have hn1 : 1 ≤ N.toNat := by omega
  set n := N.toNat with hn
  set f := teamTotal team1 0 scoring cats (ed - sd + 1) z with hfd
  set g := teamTotal team2 1 scoring cats (ed - sd + 1) z with hgd
  have htie : aggTieCount n f g = 0 := by
    unfold aggTieCount
    rw [List.length_eq_zero, List.filter_eq_nil_iff]
    intro i hi
    simpa using hnt i (List.mem_range.mp hi)
  have htri := win_lose_tie_count n f g
  set w := aggWinCount n f g with hw
  set l := aggWinCount n g f with hl
  have hwl : w + l = n := by omega
  have hnQpos : (0 : ℚ) < (n : ℚ) := by exact_mod_cast hn1
  have hcast : (w : ℚ) + (l : ℚ) = (n : ℚ) := by exact_mod_cast hwl
  refine ⟨(w : ℚ) / (n : ℚ), ((n : ℚ) - (w : ℚ)) / (n : ℚ), ?_, ?_⟩
  · simp only [simulate_matchup, if_neg (by omega : ¬ N < 0), if_neg (by omega : ¬ N = 0)]
  · simp only [simulate_matchup, if_neg (by omega : ¬ N < 0), if_neg (by omega : ¬ N = 0)]
    rw [e0 team2, e1 team1, ← hfd, ← hgd, ← hl]
    have hlq : (l : ℚ) = (n : ℚ) - (w : ℚ) := by linarith
    rw [hlq, sub_sub_cancel]

/-- Witness for C5 at a run with no tied trial: one scoring player on
team1 against an empty team2. -/
theorem swap_symmetry_no_ties_witness :
    (1 : Int) ≤ 1 ∧
    (∃ a b : ℚ,
      simulate_matchup demoTeam emptyTeam demoScoring ["Goals"] 0 0 1 ztape0 =
        Except.ok (some a, some b) ∧
      simulate_matchup emptyTeam demoTeam demoScoring ["Goals"] 0 0 1 (roleSwapAgg ztape0) =
        Except.ok (some b, some a)) := by
  have hnt : ∀ i, i < (1 : Int).toNat →
      teamTotal demoTeam 0 demoScoring ["Goals"] (0 - 0 + 1) ztape0 i ≠
        teamTotal emptyTeam 1 demoScoring ["Goals"] (0 - 0 + 1) ztape0 i := by
    intro i hi
    have h1 : teamTotal demoTeam 0 demoScoring ["Goals"] (0 - 0 + 1) ztape0 i = 3 := by
      simp [teamTotal, aggPlayerContrib, aggTerm, aggPlayerStatSample, sampleVal,
        pyget, demoTeam, demoScoring, ztape0, List.lookup]
    have h2 : teamTotal emptyTeam 1 demoScoring ["Goals"] (0 - 0 + 1) ztape0 i = 0 := by
      simp [teamTotal, emptyTeam]
    rw [h1, h2]
    norm_num
  exact ⟨by decide, (swap_symmetry_no_ties demoTeam emptyTeam demoScoring ["Goals"]
    0 0 1 ztape0 (by decide) hnt).2.2⟩

/-- C2 evidence: with end date strictly before start date neither
simulator fails fast with an invalid date range signal.  With the window
from day 5 to day 4 (day count 0) the Aggregate Win Simulator silently
returns the numeric pair (0, 1) and the Category Matchup Simulator
silently returns the numeric triple (0, 0, 1); with the window from day
5 to day 3 (day count -1) the category simulator dies with the numpy
negative dimension ValueError instead of a date range error. -/
theorem invalid_date_range_not_rejected :
    simulate_matchup demoTeam demoTeam demoScoring ["Goals"] 5 4 2 ztape0 =
      Except.ok (some 0, some 1) ∧
    simulate_category_matchup demoTeam demoTeam ["Goals"] 5 4 2 ctape0 =
      Except.ok (0, 0, 1) ∧
    simulate_category_matchup demoTeam demoTeam ["Goals"] 5 3 2 ctape0 =
      Except.error "ValueError: negative dimensions are not allowed" := by
  refine ⟨?_, ?_, ?_⟩
  · have h : ∀ role i, teamTotal demoTeam role demoScoring ["Goals"] 0 ztape0 i = 0 := by
      intro role i; simp [teamTotal]
    simp [simulate_matchup, aggWinCount, h]
  · have h : ∀ t, trialTally demoTeam demoTeam ["Goals"] 0 ctape0 t = (0, 0, 1) := by
      intro t
      simp [trialTally, tallyStep, catOutcome, catCompare, teamCatScore, catPlayerScore,
        pyget, List.lookup, category_preferences]
    simp [simulate_category_matchup, h, List.range_succ]
    norm_num [pyround]
  · simp [simulate_category_matchup, hasDraw, demoTeam]

/-- C3 evidence: a non-positive trial count is not rejected with a clear
validation error.  At N = 0 the Aggregate Win Simulator silently returns
the degenerate NaN pair from the division 0 / 0, at N = -1 it dies with
the numpy negative dimension ValueError from numpy.zeros, and at N = 0
the Category Matchup Simulator dies with the ValueError raised by round
applied to the NaN that numpy.mean produces on the empty tally lists. -/
theorem nonpositive_trials_not_rejected :
    simulate_matchup demoTeam demoTeam demoScoring ["Goals"] 0 7 0 ztape0 =
      Except.ok (none, none) ∧
    simulate_matchup demoTeam demoTeam demoScoring ["Goals"] 0 7 (-1) ztape0 =
      Except.error "ValueError: negative dimensions are not allowed" ∧
    simulate_category_matchup demoTeam demoTeam ["Goals"] 0 7 0 ctape0 =
      Except.error "ValueError: cannot convert float NaN to integer" := by
  refine ⟨?_, ?_, ?_⟩
  · simp [simulate_matchup]
  · simp [simulate_matchup]
  · simp [simulate_category_matchup]
